import Mathlib

/-!
Shallow embedding of the gestore repository (demoapp/models.py and
gestore/encoders.py) in Lean 4.

Dates are embedded as ordinal day numbers (`Nat`), database rows as Lean
structures, and tables as lists of rows.  Deletion policies declared with
`on_delete=...` in the schema are embedded as explicit delete operations
whose behaviour follows the declared policy.  Fallible operations (signal
hook, deletion under a restrict policy, string representation of a row
with a null reference, JSON encoding) return `Except`.
-/

namespace Gestore

/-- Dates are ordinal day numbers; Python `date` comparison is the order on `Nat`. -/
abbrev Date := Nat

/-- Row of the Genre model: `name = models.CharField(max_length=200, ...)`. -/
structure Genre where
  id : Nat
  name : String
  deriving Repr, DecidableEq

/-- Row of the Language model: `name = models.CharField(max_length=200, ...)`. -/
structure Language where
  id : Nat
  name : String
  deriving Repr, DecidableEq

/-- Row of the Author model: `first_name`, `last_name`, nullable
`date_of_birth` and `date_of_death`. -/
structure Author where
  id : Nat
  first_name : String
  last_name : String
  date_of_birth : Option Date
  date_of_death : Option Date
  deriving Repr, DecidableEq

/-- Row of the Book model.  `author` is a nullable foreign key to Author
(`on_delete=models.SET_NULL, null=True`), `language` a nullable foreign key
to Language (`on_delete=models.SET_NULL, null=True`), `genre` a
many-to-many to Genre (embedded as the list of related Genre rows, in the
order `self.genre.all()` yields them). -/
structure Book where
  id : Nat
  title : String
  author : Option Nat
  summary : String
  isbn : String
  genre : List Genre
  language : Option Nat
  deriving Repr, DecidableEq

/-- Choice list `LOAN_STATUS` of BookInstance, verbatim from the model. -/
def LOAN_STATUS : List (Char × String) :=
  [('d', "Maintenance"), ('o', "On loan"), ('a', "Available"), ('r', "Reserved")]

/-- Row of the BookInstance model.  `id` is the UUID primary key (embedded
as a string), `book` a nullable foreign key to Book with `on_delete=RESTRICT`,
`due_back` and `borrower` nullable, `status` a one-character code with
`choices=LOAN_STATUS, default='d'`. -/
structure BookInstance where
  id : String
  book : Option Nat
  imprint : String
  due_back : Option Date
  borrower : Option Nat
  status : Char
  deriving Repr, DecidableEq

/-- Construction of a BookInstance without an explicit status uses the
declared field default `default='d'`. -/
def BookInstance.mk_default (id : String) (book : Option Nat) (imprint : String)
    (due_back : Option Date) (borrower : Option Nat) : BookInstance :=
  { id := id, book := book, imprint := imprint, due_back := due_back,
    borrower := borrower, status := 'd' }

/-- Validation of the `status` field against its `choices=LOAN_STATUS`. -/
def validStatus (c : Char) : Bool :=
  LOAN_STATUS.any (fun p => p.1 == c)

/-- Embedding of `BookInstance.is_overdue`:
`if self.due_back and date.today() > self.due_back: return True` / `return False`.
A Python `date` object is always truthy, so the conjunct `self.due_back`
tests only that the field is not None.  `today` is passed explicitly. -/
def BookInstance.is_overdue (today : Date) (b : BookInstance) : Bool :=
  match b.due_back with
  | none => false
  | some d => decide (today > d)

/-- Embedding of `Book.display_genre`:
`', '.join([genre.name for genre in self.genre.all()[:3]])`. -/
def Book.display_genre (b : Book) : String :=
  String.intercalate ", " ((b.genre.take 3).map Genre.name)

/-- Deletion policies available to `on_delete`.  `RESTRICT` at module level
is `models.PROTECT` when `django.VERSION < (3, 1, 0)` and `models.RESTRICT`
otherwise. -/
inductive OnDelete where
  | cascade
  | setNull
  | protect
  | restrict
  deriving Repr, DecidableEq

/-- Embedding of the module-level `RESTRICT` alias, parameterised by whether
the installed Django version precedes 3.1.0. -/
def RESTRICT (djangoBefore31 : Bool) : OnDelete :=
  if djangoBefore31 then .protect else .restrict

/-- Declared deletion policy of `Book.author` (`on_delete=models.SET_NULL`). -/
def Book.author_on_delete : OnDelete := .setNull

/-- Declared deletion policy of `Book.language` (`on_delete=models.SET_NULL`). -/
def Book.language_on_delete : OnDelete := .setNull

/-- Declared deletion policy of `BookInstance.book` (`on_delete=RESTRICT`). -/
def BookInstance.book_on_delete (djangoBefore31 : Bool) : OnDelete :=
  RESTRICT djangoBefore31

/-- State of the demoapp tables relevant to the claims. -/
structure Library where
  authors : List Author
  languages : List Language
  books : List Book
  instances : List BookInstance
  deriving Repr, DecidableEq

/-- Clearing of the nullable `author` reference prescribed by `SET_NULL`
for one Book row when Author `a` is deleted. -/
def Book.setNullAuthor (a : Nat) (b : Book) : Book :=
  if b.author = some a then { b with author := none } else b

/-- Clearing of the nullable `language` reference prescribed by `SET_NULL`
for one Book row when Language `l` is deleted. -/
def Book.setNullLanguage (l : Nat) (b : Book) : Book :=
  if b.language = some l then { b with language := none } else b

/-- Deletion of an Author row.  Per `Book.author`'s `on_delete=models.SET_NULL`,
every Book referencing the deleted author has its reference cleared; Book
rows themselves are not deleted. -/
def Library.deleteAuthor (db : Library) (a : Nat) : Library :=
  { db with
    authors := db.authors.filter (fun x => x.id ≠ a)
    books := db.books.map (Book.setNullAuthor a) }

/-- Deletion of a Language row.  Per `Book.language`'s `on_delete=models.SET_NULL`,
every Book referencing the deleted language has its reference cleared. -/
def Library.deleteLanguage (db : Library) (l : Nat) : Library :=
  { db with
    languages := db.languages.filter (fun x => x.id ≠ l)
    books := db.books.map (Book.setNullLanguage l) }

/-- Deletion of a Book row.  Per `BookInstance.book`'s `on_delete=RESTRICT`
(PROTECT on Django < 3.1), the deletion is refused with a restriction error
while any BookInstance still references the book; both policies reject a
direct delete of a referenced row. -/
def Library.deleteBook (db : Library) (bid : Nat) : Except Unit Library :=
  if db.instances.any (fun i => i.book == some bid) then
    .error ()
  else
    .ok { db with books := db.books.filter (fun b => b.id ≠ bid) }

/-- Lookup of a Book row by primary key (dereferencing a foreign key). -/
def Library.findBook (db : Library) (bid : Nat) : Option Book :=
  db.books.find? (fun b => b.id == bid)

/-- Embedding of `BookInstance.__str__`:
`'{0} ({1})'.format(self.id, self.book.title)`.  When the nullable `book`
field is null, `self.book` is `None` and `.title` raises `AttributeError`,
embedded as `.error ()`. -/
def BookInstance.toStr (db : Library) (i : BookInstance) : Except Unit String :=
  match i.book with
  | none => .error ()
  | some bid =>
    match db.findBook bid with
    | none => .error ()
    | some b => .ok (i.id ++ " (" ++ b.title ++ ")")

/-- Row of the Profile model: one-to-one `user`, optional `location`
(blank default is the empty string), nullable `birthdate` and `role`. -/
structure Profile where
  user : Nat
  location : String
  birthdate : Option Date
  role : Option Nat
  deriving Repr, DecidableEq

/-- Observable effect of the signal hook on the Profile table. -/
inductive ProfileEvent where
  | created (user : Nat)
  | saved (user : Nat)
  deriving Repr, DecidableEq

/-- Embedding of `Profile.objects.create(user=instance)`: a new row with
the declared field defaults, appended to the table. -/
def Profile.create (user : Nat) : Profile :=
  { user := user, location := "", birthdate := none, role := none }

/-- Lookup of `instance.profile`, the reverse one-to-one accessor; it
raises `Profile.DoesNotExist` when no row references the user. -/
def lookupProfile (profiles : List Profile) (user : Nat) : Option Profile :=
  profiles.find? (fun p => p.user == user)

/-- Embedding of `create_or_update_user_profile`, the `post_save` receiver
for User:

    if created:
        Profile.objects.create(user=instance)
    instance.profile.save()

The result is the new Profile table together with the list of create/save
events the hook performed, or `.error ()` when `instance.profile` raises
`Profile.DoesNotExist`. -/
def create_or_update_user_profile (profiles : List Profile) (inst : Nat)
    (created : Bool) : Except Unit (List Profile × List ProfileEvent) :=
  let afterCreate :=
    if created then (profiles ++ [Profile.create inst], [ProfileEvent.created inst])
    else (profiles, [])
  match lookupProfile afterCreate.1 inst with
  | none => .error ()
  | some _ => .ok (afterCreate.1, afterCreate.2 ++ [ProfileEvent.saved inst])

/-- Count of Profile rows referencing a given user. -/
def countProfiles (profiles : List Profile) (user : Nat) : Nat :=
  (profiles.filter (fun p => p.user == user)).length

/-- Runtime values the encoder may be handed, tagged by Python type.
`fieldFile` carries its stored `name` path, `country` its `code`;
`dateV`, `decimalV` and `uuidV` stand for the types `DjangoJSONEncoder`
handles natively (their serialized text carried abstractly); `other`
is any further type the base encoder cannot serialize. -/
inductive PyValue where
  | fieldFile (name : String)
  | country (code : String)
  | dateV (iso : String)
  | decimalV (s : String)
  | uuidV (s : String)
  | other (tag : String)
  deriving Repr, DecidableEq

/-- Embedding of `DjangoJSONEncoder.default` (the base class): it
serializes dates/times, decimals and UUIDs, and raises `TypeError`
(`.error ()`) for anything else — including `FieldFile` and `Country`
values reaching it. -/
def DjangoJSONEncoder.default : PyValue → Except Unit String
  | .dateV s => .ok s
  | .decimalV s => .ok s
  | .uuidV s => .ok s
  | _ => .error ()

/-- Embedding of `GestoreEncoder.default`.  `countriesImportable` records
whether `from django_countries.fields import Country` succeeds; the
`isinstance(o, Country)` test runs only when the import succeeded, and
an `ImportError` is swallowed, letting the value fall through to
`super().default(o)`. -/
def GestoreEncoder.default (countriesImportable : Bool) :
    PyValue → Except Unit String
  | .fieldFile name => .ok name
  | .country code =>
    if countriesImportable then .ok code
    else DjangoJSONEncoder.default (.country code)
  | o => DjangoJSONEncoder.default o

/-- Recogniser for `isinstance(o, FieldFile)`. -/
def PyValue.isFieldFile : PyValue → Bool
  | .fieldFile _ => true
  | _ => false

/-- Recogniser for `isinstance(o, Country)`. -/
def PyValue.isCountry : PyValue → Bool
  | .country _ => true
  | _ => false

/-! Concrete sample rows used by the witness theorems. -/

/-- Sample genre rows. -/
def genreA : Genre := ⟨1, "Fantasy"⟩

/-- Sample genre row. -/
def genreB : Genre := ⟨2, "Poetry"⟩

/-- Sample genre row. -/
def genreC : Genre := ⟨3, "History"⟩

/-- Sample genre row. -/
def genreD : Genre := ⟨4, "Drama"⟩

/-- Sample book referencing author 1 and language 1. -/
def bookOne : Book :=
  { id := 1, title := "Dune", author := some 1, summary := "s", isbn := "123",
    genre := [genreA], language := some 1 }

/-- Sample book with four genres. -/
def bookFour : Book :=
  { id := 2, title := "Anthology", author := none, summary := "s", isbn := "456",
    genre := [genreA, genreB, genreC, genreD], language := none }

/-- Sample book instance referencing book 1, due back on day 4. -/
def instOne : BookInstance :=
  BookInstance.mk_default "uuid-1" (some 1) "imprint" (some 4) none

/-- Sample book instance whose nullable book reference is null. -/
def instNoBook : BookInstance :=
  BookInstance.mk_default "uuid-2" none "imprint" none none

/-- Sample library state. -/
def libOne : Library :=
  { authors := [⟨1, "Frank", "Herbert", none, none⟩],
    languages := [⟨1, "English"⟩],
    books := [bookOne],
    instances := [instOne] }

/-! Helper lemmas shared by the claim theorems. -/

/-- Nonexistence of a Profile row for a user, counted, gives a failing lookup. -/
theorem lookupProfile_eq_none_of_count_zero (ps : List Profile) (u : Nat)
    (h : countProfiles ps u = 0) : lookupProfile ps u = none := by
  unfold lookupProfile
  rw [List.find?_eq_none]
  intro p hp
  have hfil : ps.filter (fun p => p.user == u) = [] :=
    List.length_eq_zero.mp h
  intro hb
  have : p ∈ ps.filter (fun p => p.user == u) :=
    List.mem_filter.mpr ⟨hp, hb⟩
  rw [hfil] at this
  exact absurd this (List.not_mem_nil p)

/-! Theorems settling the claims. -/

/-- C2: for every BookInstance, `is_overdue` is true iff `due_back` is set and
strictly precedes the current date; it is false when `due_back` is unset or is
today or in the future; in particular `due_back` equal to yesterday gives true
and a null `due_back` gives false. -/
theorem is_overdue_spec (today : Date) (b : BookInstance) :
    (b.is_overdue today = true ↔ ∃ d, b.due_back = some d ∧ d < today) ∧
    (b.due_back = none → b.is_overdue today = false) ∧
    (∀ d, b.due_back = some d → today ≤ d → b.is_overdue today = false) ∧
    (0 < today → b.due_back = some (today - 1) → b.is_overdue today = true) := by
  refine ⟨?_, ?_, ?_, ?_⟩
  · cases hb : b.due_back with
    | none => simp [BookInstance.is_overdue, hb]
    | some d => simp [BookInstance.is_overdue, hb]
  · intro h
    simp [BookInstance.is_overdue, h]
  · intro d hd hle
    have hng : ¬ (today > d) := Nat.not_lt.mpr hle
    simp [BookInstance.is_overdue, hd, hng]
  · intro hpos hd
    have hg : today > today - 1 := Nat.sub_lt hpos Nat.one_pos
    simp [BookInstance.is_overdue, hd, hg]

/-- Witness for C2: with today = 5, the sample instance due back on day 4
(yesterday) is overdue. -/
theorem is_overdue_spec_witness : BookInstance.is_overdue 5 instOne = true :=
  (is_overdue_spec 5 instOne).2.2.2 (by decide) rfl

/-- C1: on a save that created the account (no Profile yet), the hook creates
the companion Profile and then saves it, leaving exactly one Profile for the
account; on any subsequent save (a Profile exists, `created` is false) it
re-saves that Profile without creating another, leaving the table unchanged;
the create event occurs only in the `created` branch and a save event occurs
unconditionally. -/
theorem profile_hook_spec (profiles : List Profile) (u : Nat)
    (hnew : countProfiles profiles u = 0) :
    create_or_update_user_profile profiles u true =
      .ok (profiles ++ [Profile.create u],
           [ProfileEvent.created u, ProfileEvent.saved u]) ∧
    countProfiles (profiles ++ [Profile.create u]) u = 1 ∧
    ∀ ps : List Profile, ∀ p, lookupProfile ps u = some p →
      create_or_update_user_profile ps u false = .ok (ps, [ProfileEvent.saved u]) := by
  have hnone : lookupProfile profiles u = none :=
    lookupProfile_eq_none_of_count_zero profiles u hnew
  refine ⟨?_, ?_, ?_⟩
  · unfold create_or_update_user_profile
    simp only [if_pos]
    have hfind : lookupProfile (profiles ++ [Profile.create u]) u
        = some (Profile.create u) := by
      unfold lookupProfile at hnone ⊢
      rw [List.find?_append, hnone]
      simp [Profile.create]
    rw [hfind]
    rfl
  · unfold countProfiles at hnew ⊢
    rw [List.filter_append, List.length_append, hnew]
    simp [Profile.create]
  · intro ps p hp
    simp [create_or_update_user_profile, hp]

/-- Witness for C1: starting from an empty Profile table, the first save of
user 0 creates and saves exactly one Profile, and a later non-creating save
re-saves it without creating another. -/
theorem profile_hook_spec_witness :
    create_or_update_user_profile [] 0 true =
      .ok ([Profile.create 0], [ProfileEvent.created 0, ProfileEvent.saved 0]) ∧
    countProfiles [Profile.create 0] 0 = 1 ∧
    create_or_update_user_profile [Profile.create 0] 0 false =
      .ok ([Profile.create 0], [ProfileEvent.saved 0]) :=
  ⟨(profile_hook_spec [] 0 rfl).1,
   (profile_hook_spec [] 0 rfl).2.1,
   (profile_hook_spec [] 0 rfl).2.2 [Profile.create 0] (Profile.create 0) rfl⟩

/-- C3: when the hook fires for a save that did not create the account and no
Profile row exists for that account, the `instance.profile` lookup error
propagates (the hook returns an error) and no Profile is created. -/
theorem profile_hook_missing_raises (profiles : List Profile) (u : Nat)
    (h : lookupProfile profiles u = none) :
    create_or_update_user_profile profiles u false = .error () := by
  simp [create_or_update_user_profile, h]

/-- Witness for C3: a non-creating save for user 0 against an empty Profile
table raises. -/
theorem profile_hook_missing_raises_witness :
    create_or_update_user_profile [] 0 false = .error () :=
  profile_hook_missing_raises [] 0 rfl

/-- C5: deleting an Author (respectively a Language) maps every Book row to
the same row with only the author (respectively language) reference cleared
when it pointed at the deleted row; all other fields are untouched, the Book
rows are not deleted (the table keeps its length), and the BookInstance table
is untouched. -/
theorem book_references_set_null_on_delete (db : Library) (a l : Nat) :
    (db.deleteAuthor a).books =
      db.books.map (fun b =>
        { b with author := if b.author = some a then none else b.author }) ∧
    (db.deleteAuthor a).books.length = db.books.length ∧
    (db.deleteAuthor a).instances = db.instances ∧
    (db.deleteLanguage l).books =
      db.books.map (fun b =>
        { b with language := if b.language = some l then none else b.language }) ∧
    (db.deleteLanguage l).books.length = db.books.length ∧
    (db.deleteLanguage l).instances = db.instances := by
  have hA : (Book.setNullAuthor a) = fun b : Book =>
      { b with author := if b.author = some a then none else b.author } := by
    funext b
    unfold Book.setNullAuthor
    split
    · rfl
    · rfl
  have hL : (Book.setNullLanguage l) = fun b : Book =>
      { b with language := if b.language = some l then none else b.language } := by
    funext b
    unfold Book.setNullLanguage
    split
    · rfl
    · rfl
  refine ⟨?_, ?_, rfl, ?_, ?_, rfl⟩
  · show db.books.map (Book.setNullAuthor a) = _
    rw [hA]
  · show (db.books.map (Book.setNullAuthor a)).length = _
    rw [List.length_map]
  · show db.books.map (Book.setNullLanguage l) = _
    rw [hL]
  · show (db.books.map (Book.setNullLanguage l)).length = _
    rw [List.length_map]

/-- C6: attempting to delete a Book is rejected with a restriction error, and
no state change is produced, while at least one BookInstance still references
it. -/
theorem book_delete_restricted (db : Library) (bid : Nat)
    (h : ∃ i ∈ db.instances, i.book = some bid) :
    db.deleteBook bid = .error () ∧ ∀ db2, db.deleteBook bid ≠ .ok db2 := by
  obtain ⟨i, hmem, hbook⟩ := h
  have hany : db.instances.any (fun i => i.book == some bid) = true :=
    List.any_eq_true.mpr ⟨i, hmem, by rw [hbook]; exact beq_self_eq_true _⟩
  constructor
  · unfold Library.deleteBook
    rw [if_pos hany]
  · intro db2 hok
    unfold Library.deleteBook at hok
    rw [if_pos hany] at hok
    cases hok

/-- Witness for C6: in the sample library, instance `instOne` references
book 1, so deleting book 1 is rejected. -/
theorem book_delete_restricted_witness :
    Library.deleteBook libOne 1 = .error () :=
  (book_delete_restricted libOne 1 ⟨instOne, by simp [libOne], rfl⟩).1

/-- C8: the `book` foreign key of a BookInstance is nullable, and computing
the string representation of a BookInstance whose book reference is null
raises, because `__str__` dereferences `self.book.title` unconditionally. -/
theorem instance_str_null_book_raises (db : Library) (i : BookInstance)
    (h : i.book = none) :
    BookInstance.toStr db i = .error () := by
  unfold BookInstance.toStr
  rw [h]

/-- Witness for C8: the sample instance with a null book reference exists and
its string representation raises. -/
theorem instance_str_null_book_raises_witness :
    BookInstance.toStr libOne instNoBook = .error () :=
  instance_str_null_book_raises libOne instNoBook rfl

/-- C4: the encoder's `default` returns the stored name for a `FieldFile`
value; otherwise, when the country dependency is importable and the value is
a `Country`, it returns the code; in every remaining case it delegates to the
base encoder's `default`. -/
theorem encoder_default_spec (imp : Bool) (o : PyValue) :
    (∀ name, o = .fieldFile name → GestoreEncoder.default imp o = .ok name) ∧
    (∀ code, o = .country code → imp = true →
      GestoreEncoder.default imp o = .ok code) ∧
    (o.isFieldFile = false → (o.isCountry = true → imp = false) →
      GestoreEncoder.default imp o = DjangoJSONEncoder.default o) := by
  refine ⟨?_, ?_, ?_⟩
  · intro name hn
    subst hn
    rfl
  · intro code hc hi
    subst hc
    subst hi
    rfl
  · intro hff hcc
    cases o with
    | fieldFile name => cases hff
    | country code =>
      have : imp = false := hcc rfl
      subst this
      rfl
    | dateV s => rfl
    | decimalV s => rfl
    | uuidV s => rfl
    | other t => rfl

/-- Witness for C4: a file-reference value encodes to its stored name. -/
theorem encoder_default_spec_witness :
    GestoreEncoder.default true (PyValue.fieldFile "photo.png") = .ok "photo.png" :=
  (encoder_default_spec true (PyValue.fieldFile "photo.png")).1 "photo.png" rfl

/-- C7: for every value the encoder does not special-case, `default`
delegates to the base encoder, inheriting its error behaviour; in particular
an unrecognised type raises (`.error`) rather than being masked or replaced
by a substitute value. -/
theorem encoder_default_fallthrough (imp : Bool) (o : PyValue)
    (hff : o.isFieldFile = false) (hcc : o.isCountry = true → imp = false) :
    GestoreEncoder.default imp o = DjangoJSONEncoder.default o ∧
    ∀ tag, GestoreEncoder.default imp (.other tag) = .error () := by
  constructor
  · cases o with
    | fieldFile name => cases hff
    | country code =>
      have : imp = false := hcc rfl
      subst this
      rfl
    | dateV s => rfl
    | decimalV s => rfl
    | uuidV s => rfl
    | other t => rfl
  · intro tag
    rfl

/-- Witness for C7: an unrecognised object delegates to the base encoder and
raises. -/
theorem encoder_default_fallthrough_witness :
    GestoreEncoder.default false (PyValue.other "object") = .error () :=
  (encoder_default_fallthrough false (PyValue.other "object") rfl
    (by decide)).2 "object"

/-- C9: the BookInstance status choices are exactly the codes 'd', 'o', 'a',
'r' labelled Maintenance, On loan, Available, Reserved; a status character is
valid against the choices iff it is one of those four codes; and a
BookInstance created without an explicit status has status 'd'
(Maintenance). -/
theorem loan_status_spec :
    LOAN_STATUS.map Prod.fst = ['d', 'o', 'a', 'r'] ∧
    LOAN_STATUS.map Prod.snd = ["Maintenance", "On loan", "Available", "Reserved"] ∧
    (∀ c : Char, validStatus c = true ↔ (c = 'd' ∨ c = 'o' ∨ c = 'a' ∨ c = 'r')) ∧
    ∀ id bk imp due bor, (BookInstance.mk_default id bk imp due bor).status = 'd' := by
  refine ⟨rfl, rfl, ?_, fun _ _ _ _ _ => rfl⟩
  intro c
  constructor
  · intro h
    simp only [validStatus, LOAN_STATUS, List.any_cons, List.any_nil,
      Bool.or_false, Bool.or_eq_true, beq_iff_eq] at h
    rcases h with h | h | h | h
    · exact Or.inl h.symm
    · exact Or.inr (Or.inl h.symm)
    · exact Or.inr (Or.inr (Or.inl h.symm))
    · exact Or.inr (Or.inr (Or.inr h.symm))
  · intro h
    rcases h with rfl | rfl | rfl | rfl <;> rfl

/-- C10: `display_genre` joins the names of at most the first three of the
book's genres with a comma separator; a book with no genres gives the empty
string, and any two genre lists agreeing on their first three elements give
the same display string, so genres beyond the third are omitted. -/
theorem display_genre_spec (b : Book) (gs : List Genre) :
    Book.display_genre b = String.intercalate ", " ((b.genre.take 3).map Genre.name) ∧
    (b.genre = [] → Book.display_genre b = "") ∧
    (b.genre.take 3 = gs.take 3 →
      Book.display_genre { b with genre := gs } = Book.display_genre b) := by
  refine ⟨rfl, ?_, ?_⟩
  · intro h
    unfold Book.display_genre
    rw [h]
    rfl
  · intro h
    unfold Book.display_genre
    simp only
    rw [h]

/-- Witness for C10: the sample four-genre book displays the same genre
string as its three-genre truncation, and a genre-less book displays the
empty string. -/
theorem display_genre_spec_witness :
    Book.display_genre { bookFour with genre := [genreA, genreB, genreC] } =
      Book.display_genre bookFour ∧
    Book.display_genre { bookFour with genre := [] } = "" :=
  ⟨(display_genre_spec bookFour [genreA, genreB, genreC]).2.2 rfl,
   (display_genre_spec { bookFour with genre := [] } []).2.1 rfl⟩

end Gestore
